import Mathlib

/-!
Shallow embedding of the Stripe billing routes of src/routes/account.js
(the checkout initiator, the unsubscribe handler and the webhook endpoint),
together with theorems about their behaviour.

The handlers are embedded as pure functions: the billing provider's
responses (customer search results, the identifier assigned to a newly
created customer, the outcome of session creation and of subscription
cancellation) are inputs, and every externally visible effect of a handler
(provider requests issued, the single database write, the HTTP outcome)
is a field of the handler's result record.
-/

namespace PretendoAccount

/-- The connections.stripe sub-record of a PNID document. Timestamps and
tier levels are stored as non-negative numbers, so they are modelled as
Nat (0 is the minimum value of the watermark). -/
structure StripeConn where
  customer_id : Option String
  subscription_id : Option String
  price_id : Option String
  tier_level : Nat
  tier_name : Option String
  latest_webhook_timestamp : Nat
  deriving Repr, DecidableEq

/-- The fields of a PNID document that the billing routes read or write.
access_level is an integer: 0 ordinary user, values of 2 and above are
staff. -/
structure PNID where
  pid : Nat
  email_address : String
  access_level : Int
  stripe : StripeConn
  deriving Repr, DecidableEq

/-- A billing-provider customer record as seen by the routes: its
identifier, contact email and the pnid_pid metadata tag. -/
structure Customer where
  id : String
  email : String
  metadata_pnid_pid : Option Nat
  deriving Repr, DecidableEq

/-- The request body of stripe.customers.create in the checkout route:
the account email and the pnid_pid metadata tag. -/
structure CreateCustomerRequest where
  email : String
  metadata_pnid_pid : Nat
  deriving Repr, DecidableEq

/-- The request body of stripe.checkout.sessions.create: line items as
(price, quantity) pairs, the customer identifier, the mode and the two
callback URLs. -/
structure SessionRequest where
  line_items : List (String × Nat)
  customer : String
  mode : String
  success_url : String
  cancel_url : String
  deriving Repr, DecidableEq

/-- Provider responses consumed by one run of the checkout route:
the data array returned by stripe.customers.search, the identifier the
provider would assign in stripe.customers.create, and the outcome of
stripe.checkout.sessions.create (the session URL, or the thrown error
message). -/
structure CheckoutEnv where
  searchResults : List Customer
  createdCustomerId : String
  sessionResult : Except String String
  deriving Repr

/-- The HTTP outcome of the checkout route: a 303 redirect to the session
URL, the staff rejection (error cookie plus redirect to /account), or the
session-creation error (error cookie plus redirect to /account). -/
inductive CheckoutOutcome where
  | redirectSession (url : String)
  | policyError (message : String)
  | providerError (message : String)
  deriving Repr, DecidableEq

/-- Everything one run of the checkout route does: the pid put in the
customer-search query, the customer-create request if one was issued, the
session-create request if one was issued, the HTTP outcome, and the
account record after the route's single database write. -/
structure CheckoutResult where
  searchedPid : Nat
  createRequest : Option CreateCustomerRequest
  sessionRequest : Option SessionRequest
  outcome : CheckoutOutcome
  account : PNID
  deriving Repr

/-- Lines 313-327 of account.js: take the first customer of the search
results if there are any, otherwise create a customer carrying the
account email and the pnid_pid metadata tag. Returns the customer used
and the create request when one was issued. -/
def resolveCustomer (account : PNID) (env : CheckoutEnv) :
    Customer × Option CreateCustomerRequest :=
  match env.searchResults with
  | c :: _ => (c, none)
  | [] =>
    ({ id := env.createdCustomerId
       email := account.email_address
       metadata_pnid_pid := some account.pid },
     some { email := account.email_address, metadata_pnid_pid := account.pid })

/-- Lines 329-334 of account.js: the updateOne that sets
connections.stripe.customer_id to the resolved customer and resets
connections.stripe.latest_webhook_timestamp to 0, touching nothing else. -/
def persistCustomer (account : PNID) (customerId : String) : PNID :=
  { account with
    stripe := { account.stripe with
                customer_id := some customerId
                latest_webhook_timestamp := 0 } }

/-- The POST /stripe/checkout/:priceId route (lines 308-367 of
account.js): resolve the customer, persist it with a reset watermark,
then reject staff (access_level of 2 or more), otherwise request a
subscription-mode checkout session for the single line item and redirect
to it, surfacing a session-creation error as an error cookie. -/
def stripeCheckout (baseUrl priceId : String) (account : PNID)
    (env : CheckoutEnv) : CheckoutResult :=
  let resolved := resolveCustomer account env
  let customer := resolved.1
  let account1 := persistCustomer account customer.id
  if account1.access_level ≥ 2 then
    { searchedPid := account.pid
      createRequest := resolved.2
      sessionRequest := none
      outcome := .policyError "Staff members do not need to purchase tiers"
      account := account1 }
  else
    let req : SessionRequest :=
      { line_items := [(priceId, 1)]
        customer := customer.id
        mode := "subscription"
        success_url := baseUrl ++ "/account?upgrade_success=true"
        cancel_url := baseUrl ++ "/account?upgrade_success=false" }
    match env.sessionResult with
    | .ok url =>
      { searchedPid := account.pid
        createRequest := resolved.2
        sessionRequest := some req
        outcome := .redirectSession url
        account := account1 }
    | .error msg =>
      { searchedPid := account.pid
        createRequest := resolved.2
        sessionRequest := some req
        outcome := .providerError msg
        account := account1 }

/-- The HTTP outcome of the unsubscribe route: the success cookie
(carrying the tier name read before any update) plus redirect, or the
cancellation-error cookie plus redirect. -/
inductive UnsubOutcome where
  | success (tierName : Option String)
  | providerError
  deriving Repr, DecidableEq

/-- Everything one run of the unsubscribe route does: the subscription
identifier sent to stripe.subscriptions.del if any, whether the single
updateOne was executed, the HTTP outcome, and the resulting account. -/
structure UnsubResult where
  delRequest : Option String
  dbWrite : Bool
  outcome : UnsubOutcome
  account : PNID
  deriving Repr

/-- The POST /stripe/unsubscribe route (lines 369-406 of account.js).
The source guards on JS truthiness of the stored subscription id; a
stored subscription id is either absent (none) or a provider identifier,
so the guard is modelled as the match on the Option. On cancellation
success the route applies one updateOne nulling subscription_id,
price_id and tier_name and zeroing tier_level, adding access_level := 0
exactly when the stored access_level is below 2; on cancellation failure
it only sets the error cookie. -/
def stripeUnsubscribe (pnid : PNID) (delResult : Except String Unit) :
    UnsubResult :=
  let tierName := pnid.stripe.tier_name
  match pnid.stripe.subscription_id with
  | some subscriptionId =>
    match delResult with
    | .ok _ =>
      let stripe1 : StripeConn :=
        { pnid.stripe with
          subscription_id := none
          price_id := none
          tier_level := 0
          tier_name := none }
      let pnid1 :=
        if pnid.access_level < 2 then
          { pnid with stripe := stripe1, access_level := 0 }
        else
          { pnid with stripe := stripe1 }
      { delRequest := some subscriptionId
        dbWrite := true
        outcome := .success tierName
        account := pnid1 }
    | .error _ =>
      { delRequest := some subscriptionId
        dbWrite := false
        outcome := .providerError
        account := pnid }
  | none =>
    { delRequest := none
      dbWrite := false
      outcome := .success tierName
      account := pnid }

/-- A billing event as produced by a successful signature verification. -/
structure StripeEvent where
  id : String
  typ : String
  deriving Repr, DecidableEq

/-- The HTTP response of the webhook endpoint: status 400 with the error
body, or the acknowledgment body (response.json with received true). -/
inductive WebhookResponse where
  | badRequest (body : String)
  | ack
  deriving Repr, DecidableEq

/-- Everything one run of the webhook endpoint does: the events handed to
util.handleStripeEvent, and the HTTP response. -/
structure WebhookResult where
  processed : List StripeEvent
  response : WebhookResponse
  deriving Repr

/-- The POST /stripe/webhook route (lines 408-421 of account.js).
stripe.webhooks.constructEvent (signature verification against the
shared secret) is modelled as its outcome: the verified event, or the
thrown error message. On failure the route answers status 400 with the
error text and processes nothing; on success it hands the event to the
state machine and answers the acknowledgment body. -/
def stripeWebhook (verified : Except String StripeEvent) : WebhookResult :=
  match verified with
  | .error err =>
    { processed := [], response := .badRequest ("Webhook Error: " ++ err) }
  | .ok event =>
    { processed := [event], response := .ack }

/-- A staff account (access_level 2) with no billing history and a
non-zero stored watermark. -/
def staffAccount : PNID :=
  { pid := 100
    email_address := "staff@pretendo.network"
    access_level := 2
    stripe := { customer_id := none
                subscription_id := none
                price_id := none
                tier_level := 0
                tier_name := none
                latest_webhook_timestamp := 7 } }

/-- A checkout environment with an empty customer search, so the route
creates a customer, and a session creation that succeeds. -/
def freshCheckoutEnv : CheckoutEnv :=
  { searchResults := []
    createdCustomerId := "cus_new"
    sessionResult := .ok "https://checkout.stripe.com/c/pay/cs_test" }

/-- An ordinary subscribed account (access_level 1, tester). -/
def subscriberAccount : PNID :=
  { pid := 200
    email_address := "user@pretendo.network"
    access_level := 1
    stripe := { customer_id := some "cus_200"
                subscription_id := some "sub_200"
                price_id := some "price_tier2"
                tier_level := 2
                tier_name := some "Super Fan"
                latest_webhook_timestamp := 50 } }

/-- A staff account that also carries a subscription record. -/
def staffSubscriberAccount : PNID :=
  { pid := 300
    email_address := "dev@pretendo.network"
    access_level := 3
    stripe := { customer_id := some "cus_300"
                subscription_id := some "sub_300"
                price_id := some "price_tier2"
                tier_level := 2
                tier_name := some "Super Fan"
                latest_webhook_timestamp := 80 } }

/-- An ordinary account with no subscription. -/
def unsubscribedAccount : PNID :=
  { pid := 400
    email_address := "free@pretendo.network"
    access_level := 0
    stripe := { customer_id := some "cus_400"
                subscription_id := none
                price_id := none
                tier_level := 0
                tier_name := none
                latest_webhook_timestamp := 10 } }

/-- An ordinary account with a non-zero stored watermark, used to show
the checkout route moving the watermark backwards. -/
def priorWatermarkAccount : PNID :=
  { pid := 500
    email_address := "prior@pretendo.network"
    access_level := 1
    stripe := { customer_id := some "cus_500"
                subscription_id := some "sub_500"
                price_id := some "price_tier2"
                tier_level := 2
                tier_name := some "Super Fan"
                latest_webhook_timestamp := 90 } }

/-- A customer already present at the provider, tagged with pid 200. -/
def foundCustomer : Customer :=
  { id := "cus_old"
    email := "user@pretendo.network"
    metadata_pnid_pid := some 200 }

/-- A checkout environment whose customer search finds foundCustomer. -/
def foundCheckoutEnv : CheckoutEnv :=
  { searchResults := [foundCustomer]
    createdCustomerId := "cus_unused"
    sessionResult := .ok "https://checkout.stripe.com/c/pay/cs_live" }

/-- String concatenation is associative (helper for the callback-URL
statements). -/
theorem string_append_assoc (a b c : String) :
    (a ++ b) ++ c = a ++ (b ++ c) := by
  rcases a with ⟨da⟩; rcases b with ⟨db⟩; rcases c with ⟨dc⟩
  show String.mk ((da ++ db) ++ dc) = String.mk (da ++ (db ++ dc))
  rw [List.append_assoc]

/-- Claim C1, counterexample: checkout initiation by the staff account
(access_level 2, empty customer search, stored watermark 7) does mutate
the persisted billing fields: the route writes customer_id (none becomes
the freshly created identifier) and resets latest_webhook_timestamp from
7 to 0 before the staff check rejects the request, so the claim that
staff checkout performs no mutation of customer_id and
latest_webhook_timestamp is false. -/
theorem checkout_staff_mutation_counterexample :
    ¬ ((stripeCheckout "https://pretendo.network" "price_123" staffAccount
          freshCheckoutEnv).account.stripe.customer_id
        = staffAccount.stripe.customer_id
      ∧ (stripeCheckout "https://pretendo.network" "price_123" staffAccount
          freshCheckoutEnv).account.stripe.latest_webhook_timestamp
        = staffAccount.stripe.latest_webhook_timestamp) := by
  decide

/-- Claim C1 (amended): checkout initiation by a staff account
(access_level at least 2) fails with the policy error, no checkout
session is requested, and the tier fields and access_level are
untouched; however the customer resolution and its persistence run
before the staff check, so customer_id is set to the resolved customer
identifier and latest_webhook_timestamp is reset to 0 even for staff. -/
theorem checkout_staff_policy_error (baseUrl priceId : String)
    (account : PNID) (env : CheckoutEnv) (h : 2 ≤ account.access_level) :
    (stripeCheckout baseUrl priceId account env).outcome
        = .policyError "Staff members do not need to purchase tiers"
    ∧ (stripeCheckout baseUrl priceId account env).sessionRequest = none
    ∧ (stripeCheckout baseUrl priceId account env).account.stripe.subscription_id
        = account.stripe.subscription_id
    ∧ (stripeCheckout baseUrl priceId account env).account.stripe.price_id
        = account.stripe.price_id
    ∧ (stripeCheckout baseUrl priceId account env).account.stripe.tier_level
        = account.stripe.tier_level
    ∧ (stripeCheckout baseUrl priceId account env).account.stripe.tier_name
        = account.stripe.tier_name
    ∧ (stripeCheckout baseUrl priceId account env).account.access_level
        = account.access_level
    ∧ (stripeCheckout baseUrl priceId account env).account.stripe.customer_id
        = some (resolveCustomer account env).1.id
    ∧ (stripeCheckout baseUrl priceId account env).account.stripe.latest_webhook_timestamp
        = 0 := by
  have hcond : (persistCustomer account (resolveCustomer account env).1.id).access_level ≥ 2 := h
  simp only [stripeCheckout]
  rw [if_pos hcond]
  exact ⟨rfl, rfl, rfl, rfl, rfl, rfl, rfl, rfl, rfl⟩

/-- Witness for checkout_staff_policy_error at the concrete staff
account. -/
theorem checkout_staff_policy_error_witness :
    (2 : Int) ≤ staffAccount.access_level
    ∧ (stripeCheckout "https://pretendo.network" "price_123" staffAccount
        freshCheckoutEnv).sessionRequest = none :=
  ⟨by decide,
   (checkout_staff_policy_error "https://pretendo.network" "price_123"
      staffAccount freshCheckoutEnv (by decide)).2.1⟩

/-- Claim C2: the webhook endpoint authenticates the event before any
processing. If signature verification fails, the response is the 400
error body, it is not the acknowledgment, and no event reaches the state
machine; if verification succeeds, exactly the verified event is handed
to the state machine and the acknowledgment body is returned, whatever
the event is (so also for events the state machine treats as stale
no-ops). -/
theorem webhook_verify_before_process (verified : Except String StripeEvent) :
    (∀ msg, verified = .error msg →
        (stripeWebhook verified).processed = []
        ∧ (stripeWebhook verified).response
            = .badRequest ("Webhook Error: " ++ msg)
        ∧ (stripeWebhook verified).response ≠ .ack)
    ∧ (∀ event, verified = .ok event →
        (stripeWebhook verified).processed = [event]
        ∧ (stripeWebhook verified).response = .ack) := by
  constructor
  · intro msg hmsg
    subst hmsg
    simp [stripeWebhook]
  · intro event hevent
    subst hevent
    simp [stripeWebhook]

/-- Witness for webhook_verify_before_process on a concrete failed
verification and a concrete verified event. -/
theorem webhook_verify_before_process_witness :
    (stripeWebhook (.error "No signatures found")).processed = []
    ∧ (stripeWebhook (.ok { id := "evt_1", typ := "customer.subscription.updated" })).response
        = .ack :=
  ⟨((webhook_verify_before_process (.error "No signatures found")).1
      "No signatures found" rfl).1,
   ((webhook_verify_before_process
      (.ok { id := "evt_1", typ := "customer.subscription.updated" })).2
      { id := "evt_1", typ := "customer.subscription.updated" } rfl).2⟩

/-- Claim C3: unsubscribe on an account with a stored subscription id,
when the provider cancellation succeeds, performs its single database
write setting subscription_id, price_id and tier_name to null and
tier_level to 0, and access_level is reset to 0 exactly when the stored
access_level is below 2. -/
theorem unsubscribe_active_success (pnid : PNID) (subId : String)
    (hsub : pnid.stripe.subscription_id = some subId) :
    (stripeUnsubscribe pnid (Except.ok ())).dbWrite = true
    ∧ (stripeUnsubscribe pnid (Except.ok ())).delRequest = some subId
    ∧ (stripeUnsubscribe pnid (Except.ok ())).account.stripe.subscription_id = none
    ∧ (stripeUnsubscribe pnid (Except.ok ())).account.stripe.price_id = none
    ∧ (stripeUnsubscribe pnid (Except.ok ())).account.stripe.tier_name = none
    ∧ (stripeUnsubscribe pnid (Except.ok ())).account.stripe.tier_level = 0
    ∧ ((stripeUnsubscribe pnid (Except.ok ())).account.access_level
        = if pnid.access_level < 2 then 0 else pnid.access_level)
    ∧ ((stripeUnsubscribe pnid (Except.ok ())).account.access_level = 0
        ↔ pnid.access_level < 2) := by
  simp only [stripeUnsubscribe, hsub]
  by_cases h2 : pnid.access_level < 2 <;> simp [h2]
  omega

/-- Witness for unsubscribe_active_success at the concrete subscribed
account. -/
theorem unsubscribe_active_success_witness :
    subscriberAccount.stripe.subscription_id = some "sub_200"
    ∧ (stripeUnsubscribe subscriberAccount (Except.ok ())).account.stripe.tier_level = 0 :=
  ⟨rfl, (unsubscribe_active_success subscriberAccount "sub_200" rfl).2.2.2.2.2.1⟩

/-- Claim C4: unsubscribe on an account with a stored subscription id,
when the provider cancellation fails, leaves the account unchanged,
performs no database write, and reports the cancellation-error outcome,
which is distinct from every success outcome (in particular from the
success returned when there is no subscription to cancel). -/
theorem unsubscribe_provider_failure (pnid : PNID) (subId msg : String)
    (hsub : pnid.stripe.subscription_id = some subId) :
    (stripeUnsubscribe pnid (Except.error msg)).account = pnid
    ∧ (stripeUnsubscribe pnid (Except.error msg)).dbWrite = false
    ∧ (stripeUnsubscribe pnid (Except.error msg)).outcome = .providerError
    ∧ ∀ t, UnsubOutcome.providerError ≠ UnsubOutcome.success t := by
  simp [stripeUnsubscribe, hsub]

/-- Witness for unsubscribe_provider_failure at the concrete subscribed
account. -/
theorem unsubscribe_provider_failure_witness :
    subscriberAccount.stripe.subscription_id = some "sub_200"
    ∧ (stripeUnsubscribe subscriberAccount
        (Except.error "api_connection_error")).account = subscriberAccount :=
  ⟨rfl, (unsubscribe_provider_failure subscriberAccount "sub_200"
          "api_connection_error" rfl).1⟩

/-- Claim C5: unsubscribe on an account with no stored subscription id
calls the provider with nothing, performs no database write, leaves the
account unchanged, and reports the success outcome, whatever the
provider would have answered. -/
theorem unsubscribe_no_subscription (pnid : PNID)
    (delResult : Except String Unit)
    (hnone : pnid.stripe.subscription_id = none) :
    (stripeUnsubscribe pnid delResult).account = pnid
    ∧ (stripeUnsubscribe pnid delResult).delRequest = none
    ∧ (stripeUnsubscribe pnid delResult).dbWrite = false
    ∧ (stripeUnsubscribe pnid delResult).outcome
        = .success pnid.stripe.tier_name := by
  simp [stripeUnsubscribe, hnone]

/-- Witness for unsubscribe_no_subscription at the concrete account with
no subscription. -/
theorem unsubscribe_no_subscription_witness :
    unsubscribedAccount.stripe.subscription_id = none
    ∧ (stripeUnsubscribe unsubscribedAccount (Except.ok ())).account
        = unsubscribedAccount :=
  ⟨rfl, (unsubscribe_no_subscription unsubscribedAccount (Except.ok ()) rfl).1⟩

/-- Claim C6: checkout initiation never writes the tier fields: in every
branch the resulting account has subscription_id, price_id, tier_level,
tier_name, access_level, pid and email unchanged, and the only billing
fields persisted are customer_id (set to the resolved identifier) and
the watermark (reset to 0). -/
theorem checkout_writes_no_tier_fields (baseUrl priceId : String)
    (account : PNID) (env : CheckoutEnv) :
    (stripeCheckout baseUrl priceId account env).account.stripe.subscription_id
        = account.stripe.subscription_id
    ∧ (stripeCheckout baseUrl priceId account env).account.stripe.price_id
        = account.stripe.price_id
    ∧ (stripeCheckout baseUrl priceId account env).account.stripe.tier_level
        = account.stripe.tier_level
    ∧ (stripeCheckout baseUrl priceId account env).account.stripe.tier_name
        = account.stripe.tier_name
    ∧ (stripeCheckout baseUrl priceId account env).account.access_level
        = account.access_level
    ∧ (stripeCheckout baseUrl priceId account env).account.pid = account.pid
    ∧ (stripeCheckout baseUrl priceId account env).account.email_address
        = account.email_address
    ∧ (stripeCheckout baseUrl priceId account env).account.stripe.customer_id
        = some (resolveCustomer account env).1.id
    ∧ (stripeCheckout baseUrl priceId account env).account.stripe.latest_webhook_timestamp
        = 0 := by
  simp only [stripeCheckout]
  split
  · simp [persistCustomer]
  · split <;> simp [persistCustomer]

/-- Claim C7: customer resolution searches the provider with the user's
identifier; a found customer is reused with no create request; an empty
search yields a create request tagged with the account email and the
user identifier, and the customer used carries the provider-assigned
identifier and that tag; the resolved identifier is persisted onto the
account together with resetting latest_webhook_timestamp to 0 (its
minimum), and the checkout route's resulting account is exactly that
persisted account. -/
theorem customer_resolution_spec (baseUrl priceId : String) (account : PNID)
    (env : CheckoutEnv) :
    (stripeCheckout baseUrl priceId account env).searchedPid = account.pid
    ∧ (∀ c rest, env.searchResults = c :: rest →
        (resolveCustomer account env).1 = c
        ∧ (resolveCustomer account env).2 = none)
    ∧ (env.searchResults = [] →
        (resolveCustomer account env).1.id = env.createdCustomerId
        ∧ (resolveCustomer account env).1.metadata_pnid_pid = some account.pid
        ∧ (resolveCustomer account env).2
            = some { email := account.email_address
                     metadata_pnid_pid := account.pid })
    ∧ (persistCustomer account (resolveCustomer account env).1.id).stripe.customer_id
        = some (resolveCustomer account env).1.id
    ∧ (persistCustomer account (resolveCustomer account env).1.id).stripe.latest_webhook_timestamp
        = 0
    ∧ (stripeCheckout baseUrl priceId account env).account
        = persistCustomer account (resolveCustomer account env).1.id := by
  refine ⟨?_, ?_, ?_, by simp [persistCustomer], by simp [persistCustomer], ?_⟩
  · simp only [stripeCheckout]
    split
    · rfl
    · split <;> rfl
  · intro c rest hc
    simp [resolveCustomer, hc]
  · intro hnil
    simp [resolveCustomer, hnil]
  · simp only [stripeCheckout]
    split
    · rfl
    · split <;> rfl

/-- Witness for customer_resolution_spec: the found-customer branch at a
concrete environment with one search result, and the created-customer
branch at the concrete empty-search environment. -/
theorem customer_resolution_spec_witness :
    (resolveCustomer subscriberAccount foundCheckoutEnv).2 = none
    ∧ (resolveCustomer staffAccount freshCheckoutEnv).1.id = "cus_new" :=
  ⟨((customer_resolution_spec "https://pretendo.network" "price_123"
      subscriberAccount foundCheckoutEnv).2.1 foundCustomer [] rfl).2,
   ((customer_resolution_spec "https://pretendo.network" "price_123"
      staffAccount freshCheckoutEnv).2.2.1 rfl).1⟩

/-- Claim C8: every checkout initiation that ends in the redirect to the
session issued a session-create request in subscription mode with
exactly one line item (the chosen plan, quantity 1), bound to the
resolved customer identifier, whose success and cancel callback URLs
share a common prefix and differ only in the outcome flag. -/
theorem checkout_session_shape (baseUrl priceId : String) (account : PNID)
    (env : CheckoutEnv) (url : String)
    (h : (stripeCheckout baseUrl priceId account env).outcome
        = .redirectSession url) :
    (stripeCheckout baseUrl priceId account env).sessionRequest
      = some { line_items := [(priceId, 1)]
               customer := (resolveCustomer account env).1.id
               mode := "subscription"
               success_url := baseUrl ++ "/account?upgrade_success=true"
               cancel_url := baseUrl ++ "/account?upgrade_success=false" }
    ∧ ∃ p, baseUrl ++ "/account?upgrade_success=true" = p ++ "true"
        ∧ baseUrl ++ "/account?upgrade_success=false" = p ++ "false" := by
  constructor
  · revert h
    simp only [stripeCheckout]
    split
    · intro h
      exact absurd h (by simp)
    · split
      · intro _
        rfl
      · intro h
        exact absurd h (by simp)
  · have htrue : ("/account?upgrade_success=" ++ "true" : String)
        = "/account?upgrade_success=true" := rfl
    have hfalse : ("/account?upgrade_success=" ++ "false" : String)
        = "/account?upgrade_success=false" := rfl
    refine ⟨baseUrl ++ "/account?upgrade_success=", ?_, ?_⟩
    · rw [string_append_assoc, htrue]
    · rw [string_append_assoc, hfalse]

/-- Witness for checkout_session_shape at a concrete non-staff account
whose session creation succeeds. -/
theorem checkout_session_shape_witness :
    (stripeCheckout "https://pretendo.network" "price_123" subscriberAccount
        freshCheckoutEnv).outcome
      = .redirectSession "https://checkout.stripe.com/c/pay/cs_test"
    ∧ (stripeCheckout "https://pretendo.network" "price_123" subscriberAccount
        freshCheckoutEnv).sessionRequest
      = some { line_items := [("price_123", 1)]
               customer := (resolveCustomer subscriberAccount freshCheckoutEnv).1.id
               mode := "subscription"
               success_url := "https://pretendo.network" ++ "/account?upgrade_success=true"
               cancel_url := "https://pretendo.network" ++ "/account?upgrade_success=false" } :=
  ⟨rfl,
   (checkout_session_shape "https://pretendo.network" "price_123"
      subscriberAccount freshCheckoutEnv
      "https://checkout.stripe.com/c/pay/cs_test" rfl).1⟩

/-- Claim C9: the unsubscribe handler never lowers the access_level of a
staff account (access_level at least 2): in every branch the resulting
access_level equals the stored one. -/
theorem unsubscribe_never_downgrades_staff (pnid : PNID)
    (delResult : Except String Unit) (h : 2 ≤ pnid.access_level) :
    (stripeUnsubscribe pnid delResult).account.access_level
      = pnid.access_level := by
  have h2 : ¬ pnid.access_level < 2 := by omega
  rcases hsub : pnid.stripe.subscription_id with _ | subId
  · simp [stripeUnsubscribe, hsub]
  · rcases delResult with msg | u
    · simp [stripeUnsubscribe, hsub]
    · simp [stripeUnsubscribe, hsub, h2]

/-- Witness for unsubscribe_never_downgrades_staff at the concrete staff
account holding a subscription, with a successful cancellation. -/
theorem unsubscribe_never_downgrades_staff_witness :
    (2 : Int) ≤ staffSubscriberAccount.access_level
    ∧ (stripeUnsubscribe staffSubscriberAccount (Except.ok ())).account.access_level
        = staffSubscriberAccount.access_level :=
  ⟨by decide,
   unsubscribe_never_downgrades_staff staffSubscriberAccount (Except.ok ())
     (by decide)⟩

/-- Claim C10: every checkout initiation leaves
latest_webhook_timestamp equal to 0 in the resulting account, whatever
the account, the search outcome, the staff check or the session result;
at the concrete account with stored watermark 90 the watermark therefore
strictly decreases, so the watermark is not monotone once checkout is
counted among the operations. -/
theorem checkout_watermark_reset (baseUrl priceId : String) (account : PNID)
    (env : CheckoutEnv) :
    (stripeCheckout baseUrl priceId account env).account.stripe.latest_webhook_timestamp
        = 0
    ∧ (stripeCheckout "https://pretendo.network" "price_123"
        priorWatermarkAccount freshCheckoutEnv).account.stripe.latest_webhook_timestamp
        < priorWatermarkAccount.stripe.latest_webhook_timestamp := by
  constructor
  · simp only [stripeCheckout]
    split
    · simp [persistCustomer]
    · split <;> simp [persistCustomer]
  · decide

end PretendoAccount
